import Mathlib

/-
Verification of the sondra repository's core against its natural-language
specification.

The Python source is shallowly embedded: Python dicts become ordered
association lists (insertion order preserved, keys unique in practice),
raised exceptions become `Except PyErr`, `None` becomes `Option`/dedicated
constructors, and the mutable heap of live `Document` objects becomes an
explicit `World` state threaded through the translated functions.

Sources embedded here:
  - src/sondra/document/__init__.py   (DocumentMetaclass, Document)
  - src/sondra/collection/__init__.py (CollectionMetaclass, Collection)
  - src/sondra/document.py            (ValueHandler, Geometry, Time, Suite,
                                       _from_ref, lookup_document)
External libraries (shapely, iso8601, datetime, rethinkdb driver) and the
repository files absent from src/ (sondra/ref.py, sondra/utils.py) are
modelled; each such definition carries a doc comment saying so.
-/

namespace Sondra

/-! ## Python dict primitives

A Python dict is modelled as an ordered association list.  `setKey` is
item assignment (replace in place, else append), `dictUpdate` is
`d.update(e)` (every key of `e` written into `d`, in `e`'s order). -/

def getKey {α : Type} : List (String × α) → String → Option α
  | [], _ => none
  | (k, v) :: rest, key => if k = key then some v else getKey rest key

def hasKey {α : Type} (d : List (String × α)) (key : String) : Bool :=
  (getKey d key).isSome

def setKey {α : Type} : List (String × α) → String → α → List (String × α)
  | [], key, v => [(key, v)]
  | (k, w) :: rest, key, v =>
      if k = key then (key, v) :: rest else (k, w) :: setKey rest key v

def delKey {α : Type} : List (String × α) → String → List (String × α)
  | [], _ => []
  | (k, w) :: rest, key => if k = key then rest else (k, w) :: delKey rest key

def dictUpdate {α : Type} (d e : List (String × α)) : List (String × α) :=
  e.foldl (fun acc kv => setKey acc kv.1 kv.2) d

/-! ## Python string primitives

Computable character-list implementations of the Python string operations
the source uses (str.split, str.lower, str.startswith, int()); they are
structurally recursive so that concrete evaluations reduce. -/

def pySplit (sep : Char) : List Char → List (List Char)
  | [] => [[]]
  | c :: rest =>
    if c = sep then [] :: pySplit sep rest
    else
      match pySplit sep rest with
      | [] => [[c]]
      | g :: gs => (c :: g) :: gs

def pyDigitsAux : Nat → List Char → Option Nat
  | acc, [] => some acc
  | acc, c :: rest =>
      if c.isDigit then pyDigitsAux (acc * 10 + (c.toNat - 48)) rest else none

/-- Python int() on a string: an optional sign followed by at least one
digit; anything else raises ValueError (none). -/
def pyInt : List Char → Option Int
  | [] => none
  | '-' :: rest =>
      if rest.isEmpty then none else (pyDigitsAux 0 rest).map (fun n => -(n : Int))
  | '+' :: rest =>
      if rest.isEmpty then none else (pyDigitsAux 0 rest).map (fun n => (n : Int))
  | cs => (pyDigitsAux 0 cs).map (fun n => (n : Int))

def charsHavePre : List Char → List Char → Bool
  | [], _ => true
  | _ :: _, [] => false
  | p :: ps, c :: cs => if p = c then charsHavePre ps cs else false

/-- Python str.startswith. -/
def pyStartsWith (s pre : String) : Bool :=
  charsHavePre pre.data s.data

/-- Python str.lower, restricted to ASCII as slugs and GeoJSON types are. -/
def charLower (c : Char) : Char :=
  if c.toNat ≥ 65 ∧ c.toNat ≤ 90 then Char.ofNat (c.toNat + 32) else c

def stringLower (s : String) : String :=
  String.mk (s.data.map charLower)

/-! ## Python exceptions -/

inductive PyErr where
  | validationError : String → PyErr
  | keyError : String → PyErr
  | typeError : String → PyErr
  | valueError : String → PyErr
  | collectionException : String → PyErr
  deriving DecidableEq, Repr

/-! ## Schema composition: definitions merge

Embeds DocumentMetaclass.__new__ (src/sondra/document/__init__.py lines
42-57) and the identical fold in CollectionMetaclass.__new__
(src/sondra/collection/__init__.py lines 34-49):

    definitions = {}
    for base in bases:
        if hasattr(base, "definitions") and base.definitions:
            definitions.update(base.definitions)
    if "definitions" in attrs:
        attrs['definitions'].update(definitions)
    else:
        attrs['definitions'] = definitions

`baseDefs` lists each base class's (already composed) `definitions` dict in
the order of the `bases` tuple; `own` is the `definitions` entry of the new
class's namespace, when declared.  The merge never inspects the schema
values, so the embedding is polymorphic in them, exactly as the Python is. -/

def merge_definitions {α : Type} (baseDefs : List (List (String × α)))
    (own : Option (List (String × α))) : List (String × α) :=
  let definitions := baseDefs.foldl (fun acc ds => dictUpdate acc ds) []
  match own with
  | some ds => dictUpdate ds definitions
  | none => definitions

/-! ## Schema composition: the id property

Embeds the schema part of CollectionMetaclass.__init__
(src/sondra/collection/__init__.py lines 63-77; the older copy at
src/sondra/document.py lines 412-426 is identical for this part):

    cls.schema = deepcopy(cls.document_class.schema)
    if 'id' in cls.schema['properties']:
        raise CollectionException('Document schema should not have an "id" property')
    if not cls.primary_key:
        cls.schema['properties']['id'] = {"type": "string", "description": "The primary key.", "title": "ID"}

`primary_key` is a class attribute whose default value is the string "id";
`none` and the empty string model the falsy Python values (None, "").  The
methods/documentMethods bookkeeping and the meta-schema check
(_validator.check_schema) do not touch `properties` and are not modelled. -/

inductive SVal where
  | s : String → SVal
  | arr : List String → SVal
  deriving DecidableEq, Repr

def idPropertySchema : List (String × SVal) :=
  [("type", SVal.s "string"), ("description", SVal.s "The primary key."), ("title", SVal.s "ID")]

def pkFalsy : Option String → Bool
  | none => true
  | some s => s.isEmpty

def compose_collection_properties (docProps : List (String × List (String × SVal)))
    (primary_key : Option String) :
    Except PyErr (List (String × List (String × SVal))) :=
  if hasKey docProps "id" then
    Except.error (PyErr.collectionException "Document schema should not have an id property")
  else if pkFalsy primary_key then
    Except.ok (setKey docProps "id" idPropertySchema)
  else
    Except.ok docProps

/-! ## Document defaults and item access

Embeds DocumentMetaclass.__init__ lines 88-90 and Document.__getitem__
lines 187-194 of src/sondra/document/__init__.py:

    cls.defaults = {k: cls.schema['properties'][k]['default']
                    for k in cls.schema['properties']
                    if 'default' in cls.schema['properties'][k]}

    def __getitem__(self, key):
        if key in self.obj:
            return self.obj[key]
        elif key in self.defaults:
            return self.defaults[key]
        else:
            raise KeyError(key)

`document_getitem` returns `none` for the KeyError case.  Property schemas
are dicts of schema fields; the comprehension only reads the "default"
field, so the embedding is polymorphic in the field values. -/

def computeDefaults {α : Type} (props : List (String × List (String × α))) :
    List (String × α) :=
  props.filterMap (fun kv => (getKey kv.2 "default").map (fun d => (kv.1, d)))

def document_getitem {α : Type} (obj defaults : List (String × α)) (key : String) :
    Option α :=
  match getKey obj key with
  | some v => some v
  | none => getKey defaults key

/-! ## Representation pipeline: the Geometry handler

Embeds class Geometry (src/sondra/document.py lines 169-190):

    def __init__(self, *allowed_types):
        self.allowed_types = set(x.lower() for x in allowed_types) if allowed_types else None

    def to_rql_repr(self, value):
        if self.allowed_types:
            if value['type'].lower() not in self.allowed_types:
                raise ValidationError('value not in ' + ','.join(t for t in self.allowed_types))
        return r.geojson(value)

    def to_json_repr(self, value):
        if isinstance(value, BaseGeometry):
            return mapping(value)
        else:
            return value

    def to_python_repr(self, value):
        del value['$reql_type$']
        return shape(value)

Geometry values: `gdict` is a plain JSON dict (GeoJSON, or the RethinkDB
GEOMETRY pseudo-type carrying a "$reql_type$" marker); `gshape` is a
shapely geometry object, represented by its type tag and coordinates;
`grql` is the opaque ReQL term produced by `r.geojson`. -/

inductive GeoPrim where
  | gstr : String → GeoPrim
  | gcoords : List Int → GeoPrim
  deriving DecidableEq, Repr

structure ShapelyGeom where
  typ : String
  coords : List Int
  deriving DecidableEq, Repr

inductive GeomValue where
  | gdict : List (String × GeoPrim) → GeomValue
  | gshape : ShapelyGeom → GeomValue
  | grql : GeomValue → GeomValue
  deriving DecidableEq, Repr

/-- Modelled external library (shapely): `shape` parses a GeoJSON mapping
into a geometry object; it needs a string "type" and a "coordinates"
member, and raises otherwise. -/
def shapely_shape (d : List (String × GeoPrim)) : Except PyErr GeomValue :=
  match getKey d "type", getKey d "coordinates" with
  | some (GeoPrim.gstr t), some (GeoPrim.gcoords cs) =>
      Except.ok (GeomValue.gshape { typ := t, coords := cs })
  | _, _ => Except.error (PyErr.valueError "shapely: unable to build geometry")

/-- Modelled external library (shapely): `mapping` renders a geometry
object back to its GeoJSON dict of "type" and "coordinates". -/
def shapely_mapping (g : ShapelyGeom) : List (String × GeoPrim) :=
  [("type", GeoPrim.gstr g.typ), ("coordinates", GeoPrim.gcoords g.coords)]

structure GeometryH where
  allowed_types : Option (List String)
  deriving DecidableEq, Repr

def geometryInit (allowed : List String) : GeometryH :=
  { allowed_types := if allowed.isEmpty then none else some (allowed.map stringLower) }

def geometry_check_allowed (h : GeometryH) (value : GeomValue) : Except PyErr Unit :=
  match h.allowed_types with
  | none => Except.ok ()
  | some ts =>
    match value with
    | GeomValue.gdict d =>
      match getKey d "type" with
      | some (GeoPrim.gstr t) =>
          if stringLower t ∈ ts then Except.ok ()
          else Except.error (PyErr.validationError ("value not in " ++ String.intercalate "," ts))
      | some _ => Except.error (PyErr.typeError "type member is not a string")
      | none => Except.error (PyErr.keyError "type")
    | _ => Except.error (PyErr.typeError "value is not subscriptable")

def geometry_to_rql_repr (h : GeometryH) (value : GeomValue) : Except PyErr GeomValue :=
  match geometry_check_allowed h value with
  | Except.error e => Except.error e
  | Except.ok () => Except.ok (GeomValue.grql value)

def geometry_to_json_repr (value : GeomValue) : GeomValue :=
  match value with
  | GeomValue.gshape g => GeomValue.gdict (shapely_mapping g)
  | v => v

def geometry_to_python_repr (value : GeomValue) : Except PyErr GeomValue :=
  match value with
  | GeomValue.gdict d =>
      if hasKey d "$reql_type$" then shapely_shape (delKey d "$reql_type$")
      else Except.error (PyErr.keyError "$reql_type$")
  | _ => Except.error (PyErr.typeError "argument of type GeomValue does not support item deletion")

/-- The round-trip property of spec section 4.2 for the Geometry handler:
toNative(x) succeeds and toNative(toWire(toNative(x))) returns it again. -/
def geometryRoundTrips (x : GeomValue) : Prop :=
  ∃ y, geometry_to_python_repr x = Except.ok y ∧
    geometry_to_python_repr (geometry_to_json_repr y) = Except.ok y

/-! ## Representation pipeline: the Time handler

Embeds class Time (src/sondra/document.py lines 193-247).  ISO-8601
strings and datetime objects are represented by their content: the epoch
instant in seconds and the UTC offset in minutes (`none` when the string
carries no offset designator / the datetime is naive).  `from_rql_tz`
operates on the raw RethinkDB timezone string and is translated exactly:

    def from_rql_tz(self, tz):
        if tz == 'Z':
            return 0
        else:
            posneg = -1 if tz[0] == '-' else 1
            hours, minutes = map(int, tz.split(":"))
            offset = posneg*(hours*60 + minutes)
            return offset

Note that Python int("-05") is already negative, and posneg multiplies the
sign in a second time. -/

structure IsoString where
  epoch : Int
  offset : Option Int
  deriving DecidableEq, Repr

structure PyDateTime where
  epoch : Int
  offset : Option Int
  deriving DecidableEq, Repr

structure RqlTime where
  epoch : Int
  tz : String
  deriving DecidableEq, Repr

inductive TimeValue where
  | tstr : IsoString → TimeValue
  | tnum : Int → TimeValue
  | tdatetime : PyDateTime → TimeValue
  | trql : RqlTime → TimeValue
  | tnone : TimeValue
  deriving DecidableEq, Repr

def from_rql_tz (tz : String) : Option Int :=
  if tz = "Z" then some 0
  else
    let posneg : Int :=
      match tz.data with
      | '-' :: _ => -1
      | _ => 1
    match pySplit ':' tz.data with
    | [h, m] =>
        match pyInt h, pyInt m with
        | some hours, some minutes => some (posneg * (hours * 60 + minutes))
        | _, _ => none
    | _ => none

/-- Modelled external library (iso8601): parse_date reads an ISO-8601
string; a missing timezone designator defaults to UTC. -/
def iso8601_parse_date (s : IsoString) : PyDateTime :=
  { epoch := s.epoch, offset := some (s.offset.getD 0) }

/-- Modelled external library (datetime): isoformat renders the offset
designator exactly when the datetime is offset-aware. -/
def datetime_isoformat (d : PyDateTime) : IsoString :=
  { epoch := d.epoch, offset := d.offset }

/-- Modelled external library (rethinkdb): the TIME pseudo-value's
to_iso8601 renders the instant with its stored timezone designator.
`rqlTzMinutes` is the true offset of the stored designator. -/
def rqlTzMinutes (tz : String) : Int :=
  if tz = "Z" then 0
  else
    match pySplit ':' tz.data with
    | [h, m] =>
        match pyInt h, pyInt m with
        | some hours, some minutes =>
            if hours < 0 then hours * 60 - minutes else hours * 60 + minutes
        | _, _ => 0
    | _ => 0

def rql_to_iso8601 (rt : RqlTime) : IsoString :=
  { epoch := rt.epoch, offset := some (rqlTzMinutes rt.tz) }

def time_to_json_repr (value : TimeValue) : TimeValue :=
  match value with
  | TimeValue.tdatetime d => TimeValue.tstr (datetime_isoformat d)
  | TimeValue.trql rt => TimeValue.tstr (rql_to_iso8601 rt)
  | TimeValue.tnum n => TimeValue.tstr { epoch := n, offset := none }
  | v => v

/-- Time.to_python_repr.  The branch for stored values (objects with
to_epoch_time) computes offset = from_rql_tz(tz) and then calls
datetime.timezone(offset) with that plain int; datetime.timezone requires
a timedelta, so this branch always raises TypeError.  Values matching no
branch fall off the end of the function and yield Python None. -/
def time_to_python_repr (value : TimeValue) : Except PyErr TimeValue :=
  match value with
  | TimeValue.tstr s => Except.ok (TimeValue.tdatetime (iso8601_parse_date s))
  | TimeValue.tdatetime d => Except.ok (TimeValue.tdatetime d)
  | TimeValue.trql rt =>
      match from_rql_tz rt.tz with
      | none => Except.error (PyErr.valueError "invalid literal for int()")
      | some _ => Except.error (PyErr.typeError "timezone offset must be a timedelta")
  | _ => Except.ok TimeValue.tnone

/-- The round-trip property of spec section 4.2 for the Time handler. -/
def timeRoundTrips (x : TimeValue) : Prop :=
  ∃ y, time_to_python_repr x = Except.ok y ∧
    time_to_python_repr (time_to_json_repr y) = Except.ok y

/-! ## Reference resolver: the native-form direction

Embeds _from_ref and Suite.lookup_document (src/sondra/document.py lines
109-117 and 391-395):

    def _from_ref(doc):
        env = Suite()
        if isinstance(doc, str):
            if doc.startswith(env.base_url):
                return env.lookup_document(doc)
            else:
                return doc
        else:
            return doc

    def lookup_document(self, url):
        if not url.startswith(self.base_url):
            return None
        else:
            return Reference(Suite(), url).get_document()

The Suite registry is application slug, to collection slug, to the set of
document primary keys present.  `RefValue.rnone` is Python None. -/

inductive RefValue where
  | rstr : String → RefValue
  | rdoc : String → RefValue
  | rnone : RefValue
  | rother : RefValue
  deriving DecidableEq, Repr

structure SuiteReg where
  base_url : String
  apps : List (String × List (String × List String))
  deriving Repr

/-- Modelled from the spec: `Reference.get_document` lives in
sondra/ref.py, which is not under src/.  Per spec sections 4.3 and 7, the
identifier's path segments under the suite's base address name an
application, a collection and a document key; when the addressed entity is
absent from the registry the original string is returned unchanged, and
resolution failure never raises. -/
def reference_get_document (env : SuiteReg) (url : String) : RefValue :=
  let rest := url.data.drop env.base_url.data.length
  let segs := (pySplit '/' rest).filter (fun seg => !seg.isEmpty)
  match segs with
  | [a, c, k] =>
    match getKey env.apps (String.mk a) with
    | some colls =>
      match getKey colls (String.mk c) with
      | some keys =>
          if String.mk k ∈ keys then RefValue.rdoc url else RefValue.rstr url
      | none => RefValue.rstr url
    | none => RefValue.rstr url
  | _ => RefValue.rstr url

def lookup_document (env : SuiteReg) (url : String) : Option RefValue :=
  if !pyStartsWith url env.base_url then none
  else some (reference_get_document env url)

def from_ref (env : SuiteReg) (doc : RefValue) : RefValue :=
  match doc with
  | RefValue.rstr s =>
      if pyStartsWith s env.base_url then
        match lookup_document env s with
        | some v => v
        | none => RefValue.rnone
      else RefValue.rstr s
  | v => v

/-- An identifier fails to resolve when its path under the base address
does not name an application, collection and document key that are all
present in the registry; reducible so the witness can decide it. -/
abbrev resolutionFails (env : SuiteReg) (s : String) : Prop :=
  reference_get_document env s = RefValue.rstr s

/-! ## Document and Collection runtime

Embeds the live-object layer: Document.__init__, id, url, __setitem__,
save, __eq__ (src/sondra/document/__init__.py lines 115-132, 144-150,
161-168, 183-185, 210-219, 254-255), _reference (lines 28-34) and
Collection.save with its _to_json_repr/_to_rql_repr pipeline
(src/sondra/collection/__init__.py lines 288-301 and 458-488).

Live Document objects are heap cells addressed by index; `World` carries
the heap and the rows the RethinkDB table.insert call has received.
Document property values are strings, ints, None or live documents;
container values are handled in the source by utils.mapjson (sondra/
utils.py, not under src/) and are not exercised by any claim, so DocValue
carries no containers.  jsonschema.validate raises exactly when the
collection's schema predicate rejects the row; the collection's custom
validator hook may raise; lifecycle signals are no-ops here. -/

inductive DocValue where
  | vstr : String → DocValue
  | vint : Int → DocValue
  | vnone : DocValue
  | vdoc : Nat → DocValue
  deriving DecidableEq, Repr

abbrev Row := List (String × DocValue)

structure DocState where
  obj : Row
  saved : Bool
  urlCache : Option String
  deriving DecidableEq, Repr

structure World where
  docs : List DocState
  store : List Row
  deriving DecidableEq, Repr

structure HandlerM where
  toJson : DocValue → Except PyErr DocValue
  toRql : DocValue → Except PyErr DocValue

structure CollectionM where
  url : String
  primary_key : String
  specials : List (String × HandlerM)
  schemaValid : Row → Bool
  validatorHook : Row → Except PyErr Unit

/-- Python truthiness of a property value, as used by `if not v.id` in
_reference and by `self.id and ...` in Document.__eq__. -/
def pyTruthy : DocValue → Bool
  | DocValue.vstr s => !s.data.isEmpty
  | DocValue.vint n => n != 0
  | DocValue.vnone => false
  | DocValue.vdoc _ => true

def pyTruthyOpt : Option DocValue → Bool
  | none => false
  | some v => pyTruthy v

/-- Document.id: the primary key value if the document has been saved,
None otherwise; reading a missing key raises KeyError. -/
def document_id (c : CollectionM) (ds : DocState) : Except PyErr (Option DocValue) :=
  if ds.saved then
    match getKey ds.obj c.primary_key with
    | some v => Except.ok (some v)
    | none => Except.error (PyErr.keyError c.primary_key)
  else Except.ok none

/-- Document.url: the cached _url when set, else collection.url joined
with the slug (which is the id); joining with None or a non-string raises
TypeError. -/
def document_url (c : CollectionM) (ds : DocState) : Except PyErr String :=
  match ds.urlCache with
  | some u => Except.ok u
  | none =>
    match document_id c ds with
    | Except.error e => Except.error e
    | Except.ok none => Except.error (PyErr.typeError "can only concatenate str to str")
    | Except.ok (some (DocValue.vstr s)) => Except.ok (c.url ++ "/" ++ s)
    | Except.ok (some _) => Except.error (PyErr.typeError "can only concatenate str to str")

/-- Document.__eq__: `self.id and (self.id == other.id)`.  A falsy own id
short-circuits (the other document's id is not even read); the Python
expression then returns that falsy value, rendered here by its
truthiness. -/
def document_eq (c : CollectionM) (d1 d2 : DocState) : Except PyErr Bool :=
  match document_id c d1 with
  | Except.error e => Except.error e
  | Except.ok i1 =>
    if pyTruthyOpt i1 then
      match document_id c d2 with
      | Except.error e => Except.error e
      | Except.ok i2 => Except.ok (decide (i1 = i2))
    else Except.ok false

/-- Collection._to_json_repr / _to_rql_repr: for each registered special
property present in the row, replace its value by the handler's
conversion. -/
def applySpecials (pick : HandlerM → DocValue → Except PyErr DocValue) :
    List (String × HandlerM) → Row → Except PyErr Row
  | [], row => Except.ok row
  | (p, h) :: rest, row =>
    match getKey row p with
    | some v =>
      match pick h v with
      | Except.ok w => applySpecials pick rest (setKey row p w)
      | Except.error e => Except.error e
    | none => applySpecials pick rest row

def collection_to_json_repr (c : CollectionM) (row : Row) : Except PyErr Row :=
  applySpecials (fun h => h.toJson) c.specials row

def collection_to_rql_repr (c : CollectionM) (row : Row) : Except PyErr Row :=
  applySpecials (fun h => h.toRql) c.specials row

/-- The inputs Collection.save accepts: live Document objects or plain
dicts. -/
inductive SaveInput where
  | sdoc : Nat → SaveInput
  | sobj : Row → SaveInput

/-- The per-document loop body of Collection.save:

    for value in docs:
        if isinstance(value, Document):
            value._saved = True
            value = copy(value.obj)
        self._to_json_repr(value)
        jsonschema.validate(value, self.schema)
        self.validator(value)
        self._to_rql_repr(value)
        values.append(value)

Note the _saved flag is set before any fallible step, and heap mutations
survive a raised exception. -/
def saveLoop (c : CollectionM) (w : World) (inputs : List SaveInput) (values : List Row) :
    World × Except PyErr (List Row) :=
  match inputs with
  | [] => (w, Except.ok values)
  | input :: rest =>
    let step : World × Except PyErr Row :=
      match input with
      | SaveInput.sdoc d =>
        match w.docs.get? d with
        | some ds =>
            ({ w with docs := w.docs.set d { ds with saved := true } }, Except.ok ds.obj)
        | none => (w, Except.error (PyErr.typeError "not a Document"))
      | SaveInput.sobj row => (w, Except.ok row)
    match step with
    | (w1, Except.error e) => (w1, Except.error e)
    | (w1, Except.ok row) =>
      match collection_to_json_repr c row with
      | Except.error e => (w1, Except.error e)
      | Except.ok row1 =>
        if !c.schemaValid row1 then
          (w1, Except.error (PyErr.validationError "document fails schema validation"))
        else
          match c.validatorHook row1 with
          | Except.error e => (w1, Except.error e)
          | Except.ok () =>
            match collection_to_rql_repr c row1 with
            | Except.error e => (w1, Except.error e)
            | Except.ok row2 => saveLoop c w1 rest (values ++ [row2])

/-- Collection.save: run the loop, then hand the converted rows to
table.insert.  On a raised exception nothing reaches the store, but heap
mutations made before the raise remain. -/
def collection_save (c : CollectionM) (w : World) (inputs : List SaveInput) :
    World × Except PyErr Unit :=
  match saveLoop c w inputs [] with
  | (w1, Except.error e) => (w1, Except.error e)
  | (w1, Except.ok rows) => ({ w1 with store := w1.store ++ rows }, Except.ok ())

/-- Document.save: `return self.collection.save(self.obj, ...)` — the raw
obj dict is handed over, not the Document object itself. -/
def document_save (c : CollectionM) (w : World) (d : Nat) : World × Except PyErr Unit :=
  match w.docs.get? d with
  | some ds => collection_save c w [SaveInput.sobj ds.obj]
  | none => (w, Except.error (PyErr.typeError "not a Document"))

/-- _reference (src/sondra/document/__init__.py lines 28-34):

    def _reference(v):
        if isinstance(v, Document):
            if not v.id:
                v.save()
            return v.url
        else:
            return v
-/
def reference_value (c : CollectionM) (w : World) (v : DocValue) :
    World × Except PyErr DocValue :=
  match v with
  | DocValue.vdoc d =>
    match w.docs.get? d with
    | none => (w, Except.error (PyErr.typeError "dangling document"))
    | some ds0 =>
      match document_id c ds0 with
      | Except.error e => (w, Except.error e)
      | Except.ok idv =>
        let afterSave : World × Except PyErr Unit :=
          if pyTruthyOpt idv then (w, Except.ok ()) else document_save c w d
        match afterSave with
        | (w1, Except.error e) => (w1, Except.error e)
        | (w1, Except.ok ()) =>
          match w1.docs.get? d with
          | none => (w1, Except.error (PyErr.typeError "dangling document"))
          | some ds1 =>
            match document_url c ds1 with
            | Except.ok u => (w1, Except.ok (DocValue.vstr u))
            | Except.error e => (w1, Except.error e)
  | v => (w, Except.ok v)

/-- Document.__setitem__ (lines 210-219).  The list/dict branch applies
utils.mapjson over containers (sondra/utils.py, not under src/); DocValue
carries no containers, so that branch has no cases here.  Document
processors default to the empty list and none are registered in the
scenarios below. -/
def document_setitem (c : CollectionM) (w : World) (d : Nat) (key : String)
    (value : DocValue) : World × Except PyErr Unit :=
  match reference_value c w value with
  | (w1, Except.error e) => (w1, Except.error e)
  | (w1, Except.ok v) =>
    match w1.docs.get? d with
    | some ds =>
        ({ w1 with docs := w1.docs.set d { ds with obj := setKey ds.obj key v } },
          Except.ok ())
    | none => (w1, Except.error (PyErr.typeError "dangling document"))

def setitemLoop (c : CollectionM) (w : World) (d : Nat) :
    Row → World × Except PyErr Nat
  | [] => (w, Except.ok d)
  | (k, v) :: rest =>
    match document_setitem c w d k v with
    | (w1, Except.error e) => (w1, Except.error e)
    | (w1, Except.ok ()) => setitemLoop c w1 d rest

/-- Document.__init__ (lines 115-132): the fresh object starts with
_saved = from_db and an empty obj; _url is cached as
collection.url + "/" + _reference(obj[primary_key]) when the primary key
is present in the initial mapping (join with a non-string raises
TypeError); then every initial item is assigned through __setitem__. -/
def document_new (c : CollectionM) (w : World) (objInit : Row) (from_db : Bool) :
    World × Except PyErr Nat :=
  let d := w.docs.length
  let w0 : World :=
    { w with docs := w.docs ++ [{ obj := [], saved := from_db, urlCache := none }] }
  let urlStep : World × Except PyErr (Option String) :=
    match getKey objInit c.primary_key with
    | some pkv =>
      match reference_value c w0 pkv with
      | (w1, Except.ok (DocValue.vstr s)) => (w1, Except.ok (some (c.url ++ "/" ++ s)))
      | (w1, Except.ok _) => (w1, Except.error (PyErr.typeError "join expects str"))
      | (w1, Except.error e) => (w1, Except.error e)
    | none => (w0, Except.ok none)
  match urlStep with
  | (w1, Except.error e) => (w1, Except.error e)
  | (w1, Except.ok uc) =>
    let w2 : World :=
      match w1.docs.get? d with
      | some ds => { w1 with docs := w1.docs.set d { ds with urlCache := uc } }
      | none => w1
    setitemLoop c w2 d objInit

/-! ## Concrete scenarios used by the claims -/

/-- A GeoJSON point, wire shape. -/
def pointGeoJson : List (String × GeoPrim) :=
  [("type", GeoPrim.gstr "Point"), ("coordinates", GeoPrim.gcoords [1, 2])]

/-- A GeoJSON polygon, wire shape (coordinates abbreviated to a ring of
indices; only the "type" member is consulted by the allow-list check). -/
def polygonGeoJson : List (String × GeoPrim) :=
  [("type", GeoPrim.gstr "Polygon"), ("coordinates", GeoPrim.gcoords [0, 0, 1, 0, 1, 1])]

/-- The "type" member of a GeoJSON dict. -/
def geoJsonTypeOf : GeomValue → Option GeoPrim
  | GeomValue.gdict d => getKey d "type"
  | _ => none

/-- A stored geometry value as read back from RethinkDB: GeoJSON members
plus the storage pseudo-type marker. -/
def storedPointGeoJson : List (String × GeoPrim) :=
  [("$reql_type$", GeoPrim.gstr "GEOMETRY"), ("type", GeoPrim.gstr "Point"),
   ("coordinates", GeoPrim.gcoords [1, 2])]

/-- A property schema used by the C8 and C9 scenarios. -/
def namePropSchema : List (String × SVal) := [("type", SVal.s "string")]

/-- Properties with one declared default, for the C9 witness. -/
def c9Props : List (String × List (String × SVal)) :=
  [("color", [("type", SVal.s "string"), ("default", SVal.s "blue")]),
   ("size", [("type", SVal.s "string")])]

/-- A registry with one application, one collection and one document, for
the C7 witness. -/
def c7Suite : SuiteReg :=
  { base_url := "http://localhost:8000",
    apps := [("app", [("coll", ["42"])])] }

/-- A plain collection: no specials, schema accepts everything, custom
validator never raises. -/
def plainColl : CollectionM :=
  { url := "http://localhost:8000/app/coll", primary_key := "id", specials := [],
    schemaValid := fun _ => true, validatorHook := fun _ => Except.ok () }

/-- A collection whose composed-schema validation rejects any document
carrying a "bad" property, for the C3 scenario. -/
def rejectingColl : CollectionM :=
  { url := "http://localhost:8000/app/coll", primary_key := "id", specials := [],
    schemaValid := fun row => !hasKey row "bad", validatorHook := fun _ => Except.ok () }

/-- An unsaved document whose obj fails the rejecting collection's schema. -/
def c3doc : DocState :=
  { obj := [("id", DocValue.vstr "x1"), ("bad", DocValue.vint 1)],
    saved := false, urlCache := none }

def c3world : World := { docs := [c3doc], store := [] }

def c3result : World × Except PyErr Unit :=
  collection_save rejectingColl c3world [SaveInput.sdoc 0]

/-- C2 scenario: construct an unsaved child with primary key "c1", then a
parent whose "ref" property is the live child, then save the parent. -/
def c2afterChild : World × Except PyErr Nat :=
  document_new plainColl { docs := [], store := [] } [("id", DocValue.vstr "c1")] false

def c2afterParent : World × Except PyErr Nat :=
  document_new plainColl c2afterChild.1
    [("id", DocValue.vstr "p1"), ("ref", DocValue.vdoc 0)] false

def c2final : World × Except PyErr Unit :=
  collection_save plainColl c2afterParent.1 [SaveInput.sdoc 1]

/-- A saved document whose primary key value is the empty string. -/
def emptyIdDoc : DocState :=
  { obj := [("id", DocValue.vstr "")], saved := true, urlCache := none }

/-- An unsaved document, for the C10 reflexivity-failure witness. -/
def unsavedDoc : DocState :=
  { obj := [("id", DocValue.vstr "u")], saved := false, urlCache := none }

/-! ## Lemmas about the dict primitives -/

theorem getKey_setKey_self {α : Type} (d : List (String × α)) (k : String) (v : α) :
    getKey (setKey d k v) k = some v := by
  induction d with
  | nil => simp [setKey, getKey]
  | cons hd tl ih =>
      by_cases h : hd.1 = k
      · simp [setKey, h, getKey]
      · simp [setKey, h, getKey, ih]

theorem getKey_setKey_other {α : Type} (d : List (String × α)) (k k' : String) (v : α)
    (h : k ≠ k') : getKey (setKey d k v) k' = getKey d k' := by
  induction d with
  | nil => simp [setKey, getKey, h]
  | cons hd tl ih =>
      by_cases hk : hd.1 = k
      · simp [setKey, hk, getKey, h]
      · by_cases hk' : hd.1 = k'
        · have hne : k' ≠ k := fun e => h e.symm
          simp [setKey, hk, getKey, hk', hne]
        · simp [setKey, hk, getKey, hk', ih]

theorem getKey_none_of_not_mem_keys {α : Type} (d : List (String × α)) (k : String)
    (h : k ∉ d.map Prod.fst) : getKey d k = none := by
  induction d with
  | nil => rfl
  | cons hd tl ih =>
      simp only [List.map_cons, List.mem_cons] at h
      push_neg at h
      have : hd.1 ≠ k := fun e => h.1 e.symm
      simp [getKey, this, ih h.2]

theorem computeDefaults_cons {α : Type} (hd : String × List (String × α))
    (tl : List (String × List (String × α))) :
    computeDefaults (hd :: tl) =
      match getKey hd.2 "default" with
      | some d => (hd.1, d) :: computeDefaults tl
      | none => computeDefaults tl := by
  cases h : getKey hd.2 "default" <;> simp [computeDefaults, List.filterMap_cons, h]

theorem computeDefaults_keys_sub {α : Type} (props : List (String × List (String × α))) :
    (computeDefaults props).map Prod.fst ⊆ props.map Prod.fst := by
  induction props with
  | nil => exact fun x hx => hx
  | cons hd tl ih =>
      intro k hk
      rw [computeDefaults_cons] at hk
      cases hgd : getKey hd.2 "default" with
      | none =>
          rw [hgd] at hk
          exact List.mem_cons_of_mem _ (ih hk)
      | some d =>
          rw [hgd] at hk
          simp only [List.map_cons, List.mem_cons] at hk
          cases hk with
          | inl h => simp [h]
          | inr h => exact List.mem_cons_of_mem _ (ih h)

theorem getKey_computeDefaults {α : Type} (props : List (String × List (String × α)))
    (key : String) (hnd : (props.map Prod.fst).Nodup) :
    getKey (computeDefaults props) key =
      (getKey props key).bind (fun fields => getKey fields "default") := by
  induction props with
  | nil => rfl
  | cons hd tl ih =>
      simp only [List.map_cons, List.nodup_cons] at hnd
      rw [computeDefaults_cons]
      by_cases hk : hd.1 = key
      · cases hgd : getKey hd.2 "default" with
        | some d =>
            simp [hgd, getKey, hk]
        | none =>
            have hnm : key ∉ (computeDefaults tl).map Prod.fst := by
              intro hmem
              exact hnd.1 (by rw [hk]; exact computeDefaults_keys_sub tl hmem)
            simp [hgd, getKey, hk, getKey_none_of_not_mem_keys _ _ hnm]
      · cases hgd : getKey hd.2 "default" with
        | some d =>
            simp [hgd, getKey, hk, ih hnd.2]
        | none =>
            simp [hgd, getKey, hk, ih hnd.2]

/-- Shared helper: the allow-list check of a Geometry handler on a GeoJSON
dict is determined by the dict's "type" member alone. -/
theorem geometry_check_allowed_of_type (ts : List String) (d : List (String × GeoPrim))
    (t : String) (h : getKey d "type" = some (GeoPrim.gstr t)) :
    geometry_check_allowed { allowed_types := some ts } (GeomValue.gdict d) =
      if stringLower t ∈ ts then Except.ok ()
      else Except.error
        (PyErr.validationError ("value not in " ++ String.intercalate "," ts)) := by
  simp [geometry_check_allowed, h]

/-- Shared helper: re-ingesting the Geometry handler's own wire output
fails, because to_python_repr unconditionally deletes the storage marker
key, which the wire shape does not carry. -/
theorem geometry_stored_point_rt_false :
    ¬ geometryRoundTrips (GeomValue.gdict storedPointGeoJson) := by
  rintro ⟨y, h1, h2⟩
  have hval : geometry_to_python_repr (GeomValue.gdict storedPointGeoJson) =
      Except.ok (GeomValue.gshape { typ := "Point", coords := [1, 2] }) := rfl
  rw [hval] at h1
  injection h1 with hy'
  rw [← hy'] at h2
  have herr : geometry_to_python_repr
      (geometry_to_json_repr (GeomValue.gshape { typ := "Point", coords := [1, 2] })) =
      Except.error (PyErr.keyError "$reql_type$") := rfl
  rw [herr] at h2
  exact Except.noConfusion h2

/-! ## The claims -/

/-- C1: the claim says that when a document type B extends A and both
declare a definition with the same name, B's (the most-derived) definition
is the one present in B's composed schema.  The code does the opposite:
attrs['definitions'].update(definitions) writes the bases' accumulated
definitions over the derived class's own dict, so the base definition
wins.  This theorem evaluates the embedded merge at the failing input: one
base class A whose definitions map "d" to a base schema, a derived class B
declaring "d" as a derived schema — the composed result keeps the base
schema. -/
theorem merge_definitions_base_wins_eval :
    merge_definitions [[("d", "base-definition")]] (some [("d", "derived-definition")]) =
      [("d", "base-definition")] := rfl

/-- C2: the claim says that saving a parent whose "ref" property holds an
unsaved child Document leaves child.saved == true and the parent's stored
object holding the child's identifier URL as a plain string.  In the code
the collapse and auto-persist do happen (at __setitem__ time) and the URL
string is stored, but the child's _saved flag is never set: Document.save
hands collection.save the raw obj dict, so the `value._saved = True`
branch never runs for the child.  This theorem evaluates the embedded
scenario: construction and save succeed, the parent's obj holds the
child's URL string, the child's row was persisted to the store, yet the
child's saved flag is still false — contradicting the claim's
`child.saved == true`. -/
theorem save_parent_child_flag_eval :
    c2afterChild.2 = Except.ok 0 ∧
    c2afterParent.2 = Except.ok 1 ∧
    c2final.2 = Except.ok () ∧
    ((c2final.1.docs.get? 1).bind (fun ds => getKey ds.obj "ref") =
      some (DocValue.vstr "http://localhost:8000/app/coll/c1")) ∧
    c2final.1.store.length = 2 ∧
    ((c2final.1.docs.get? 0).map (fun ds => ds.saved) = some false) :=
  ⟨rfl, rfl, rfl, rfl, rfl, rfl⟩

/-- C3: the claim says a save that fails before the store write leaves the
document's saved flag and contents unchanged.  The code sets
value._saved = True before wire conversion and validation, so a failed
save flips the flag (the contents and the store are indeed untouched).
This theorem evaluates the embedded scenario: an unsaved document whose
obj fails schema validation is saved; the save raises ValidationError and
writes nothing to the store and leaves obj unchanged, but the saved flag
is now true — contradicting the claim. -/
theorem failed_save_flag_flip_eval :
    c3result.2 = Except.error (PyErr.validationError "document fails schema validation") ∧
    c3result.1.store = [] ∧
    ((c3result.1.docs.get? 0).map (fun ds => ds.obj) = some c3doc.obj) ∧
    ((c3result.1.docs.get? 0).map (fun ds => ds.saved) = some true) :=
  ⟨rfl, rfl, rfl, rfl⟩

/-- C4: the claim says the Time handler's storage-to-native conversion
recovers the stored UTC offset, in particular -300 minutes for a "-05:00"
designator.  The code's from_rql_tz applies the sign twice — int("-05")
is already -5 and posneg = -1 multiplies again — yielding +300; and
Time.to_python_repr then passes that plain int to datetime.timezone, which
requires a timedelta, so the conversion of a stored value raises TypeError
instead of producing any timestamp.  This theorem evaluates both facts at
the failing input. -/
theorem from_rql_tz_neg_offset_eval :
    from_rql_tz "-05:00" = some 300 ∧
    time_to_python_repr (TimeValue.trql { epoch := 1000, tz := "-05:00" }) =
      Except.error (PyErr.typeError "timezone offset must be a timedelta") :=
  ⟨rfl, rfl⟩

/-- C5 counterexample: the claim asserts the toNative/toWire round trip
for every conforming value of the Geometry and Time handlers.  It fails
for Geometry: converting a stored point to native succeeds, but
re-ingesting its own wire output raises KeyError because to_python_repr
unconditionally deletes the "$reql_type$" storage marker, which wire-shape
GeoJSON does not carry. -/
theorem geometry_round_trip_counterexample :
    ¬ geometryRoundTrips (GeomValue.gdict storedPointGeoJson) :=
  geometry_stored_point_rt_false

/-- C5 (amended): the Time handler satisfies the round trip
toNative(toWire(toNative(x))) == toNative(x) for conforming values —
ISO-8601 strings and offset-aware datetimes — but the Geometry handler
does not: its storage-to-native conversion deletes the "$reql_type$"
marker unconditionally and fails with KeyError on its own wire output. -/
theorem handler_round_trip_amended :
    (∀ s : IsoString, timeRoundTrips (TimeValue.tstr s)) ∧
    (∀ d : PyDateTime, d.offset.isSome = true → timeRoundTrips (TimeValue.tdatetime d)) ∧
    ¬ geometryRoundTrips (GeomValue.gdict storedPointGeoJson) := by
  refine ⟨?_, ?_, geometry_stored_point_rt_false⟩
  · intro s
    obtain ⟨e, off⟩ := s
    cases off with
    | none => exact ⟨TimeValue.tdatetime ⟨e, some 0⟩, rfl, rfl⟩
    | some o => exact ⟨TimeValue.tdatetime ⟨e, some o⟩, rfl, rfl⟩
  · intro d hd
    obtain ⟨e, off⟩ := d
    obtain ⟨o, ho⟩ := Option.isSome_iff_exists.mp hd
    subst ho
    exact ⟨TimeValue.tdatetime ⟨e, some o⟩, rfl, rfl⟩

/-- C5 witness: the amended round trip at the concrete offset-aware
datetime with offset -300 minutes. -/
theorem handler_round_trip_amended_witness :
    (Option.isSome (some (-300 : Int)) = true) ∧
    timeRoundTrips (TimeValue.tdatetime { epoch := 0, offset := some (-300) }) :=
  ⟨rfl, handler_round_trip_amended.2.1 { epoch := 0, offset := some (-300) } rfl⟩

/-- C6: a Geometry handler built with allow-list consisting of "Point"
rejects, with ValidationError, the conversion to storage shape of every
GeoJSON dict whose "type" member is "Polygon" — whatever its other
members — while converting the point value succeeds and the point's wire
shape still reports type "Point". -/
theorem geometry_allowlist_spec :
    (∀ d : List (String × GeoPrim), getKey d "type" = some (GeoPrim.gstr "Polygon") →
      geometry_to_rql_repr (geometryInit ["Point"]) (GeomValue.gdict d) =
        Except.error (PyErr.validationError "value not in point")) ∧
    geometry_to_rql_repr (geometryInit ["Point"]) (GeomValue.gdict pointGeoJson) =
      Except.ok (GeomValue.grql (GeomValue.gdict pointGeoJson)) ∧
    geoJsonTypeOf (geometry_to_json_repr (GeomValue.gdict pointGeoJson)) =
      some (GeoPrim.gstr "Point") := by
  refine ⟨?_, rfl, rfl⟩
  intro d h
  have hinit : geometryInit ["Point"] = { allowed_types := some ["point"] } := rfl
  rw [hinit]
  unfold geometry_to_rql_repr
  rw [geometry_check_allowed_of_type ["point"] d "Polygon" h, if_neg (by decide)]
  rfl

/-- C6 witness: the rejection applied at the concrete polygon value. -/
theorem geometry_allowlist_spec_witness :
    getKey polygonGeoJson "type" = some (GeoPrim.gstr "Polygon") ∧
    geometry_to_rql_repr (geometryInit ["Point"]) (GeomValue.gdict polygonGeoJson) =
      Except.error (PyErr.validationError "value not in point") :=
  ⟨rfl, geometry_allowlist_spec.1 polygonGeoJson rfl⟩

/-- C7: for every string value given to the native-form resolver, if the
string does not begin with the Suite's base address, or it does but the
addressed entity is absent from the registry, the original string is
returned unchanged; resolution is a total function here, so failure never
raises. -/
theorem from_ref_failure_unchanged (env : SuiteReg) (s : String)
    (h : pyStartsWith s env.base_url = false ∨ resolutionFails env s) :
    from_ref env (RefValue.rstr s) = RefValue.rstr s := by
  cases hsw : pyStartsWith s env.base_url with
  | false => simp [from_ref, hsw]
  | true =>
      cases h with
      | inl h1 => rw [hsw] at h1; exact Bool.noConfusion h1
      | inr h2 =>
          simp [from_ref, lookup_document, hsw]
          exact h2

/-- C7 witness: an identifier under the base address whose application is
not registered comes back unchanged. -/
theorem from_ref_failure_unchanged_witness :
    resolutionFails c7Suite "http://localhost:8000/unknown-app/coll/42" ∧
    from_ref c7Suite (RefValue.rstr "http://localhost:8000/unknown-app/coll/42") =
      RefValue.rstr "http://localhost:8000/unknown-app/coll/42" :=
  ⟨by decide,
    from_ref_failure_unchanged c7Suite "http://localhost:8000/unknown-app/coll/42"
      (Or.inr (by decide))⟩

/-- C8 counterexample: the claim says that when no primary key is declared
an "id" string property is synthesized into the composed schema.  The
primary_key class attribute defaults to "id", which is truthy, so a
collection that declares no primary key gets no synthesized "id" property;
the synthesis happens exactly when primary_key is explicitly falsy (None),
in which case the schema declares "id" although the explicit primary key
is not "id".  Both evaluations contradict the claim as stated. -/
theorem compose_id_synthesis_counterexample :
    compose_collection_properties [("name", namePropSchema)] (some "id") =
      Except.ok [("name", namePropSchema)] ∧
    compose_collection_properties [("name", namePropSchema)] none =
      Except.ok [("name", namePropSchema), ("id", idPropertySchema)] :=
  ⟨rfl, rfl⟩

/-- C8 (amended): registration rejects any document schema declaring an
"id" property outright, regardless of the primary key; otherwise the
composed schema declares "id" exactly when the collection's primary_key
attribute is falsy (None or empty) — not when it is left at its default
"id" — and all other properties pass through unchanged. -/
theorem compose_properties_id_spec (docProps : List (String × List (String × SVal)))
    (primary_key : Option String) :
    (hasKey docProps "id" = true →
      compose_collection_properties docProps primary_key =
        Except.error (PyErr.collectionException
          "Document schema should not have an id property")) ∧
    (hasKey docProps "id" = false →
      ∃ ps, compose_collection_properties docProps primary_key = Except.ok ps ∧
        hasKey ps "id" = pkFalsy primary_key ∧
        ∀ k, k ≠ "id" → getKey ps k = getKey docProps k) := by
  constructor
  · intro h
    simp [compose_collection_properties, h]
  · intro h
    cases hpk : pkFalsy primary_key with
    | false =>
        refine ⟨docProps, ?_, by simpa [hpk] using h, fun k _ => rfl⟩
        simp [compose_collection_properties, h, hpk]
    | true =>
        refine ⟨setKey docProps "id" idPropertySchema, ?_, ?_, ?_⟩
        · simp [compose_collection_properties, h, hpk]
        · simp [hasKey, getKey_setKey_self, hpk]
        · intro k hk
          exact getKey_setKey_other docProps "id" k idPropertySchema (fun e => hk e.symm)

/-- C8 witness: a schema without an "id" property and an explicit primary
key "sku" composes successfully and declares no "id" property. -/
theorem compose_properties_id_spec_witness :
    hasKey [("name", namePropSchema)] "id" = false ∧
    (∃ ps, compose_collection_properties [("name", namePropSchema)] (some "sku") =
        Except.ok ps ∧ hasKey ps "id" = pkFalsy (some "sku") ∧
        ∀ k, k ≠ "id" → getKey ps k = getKey [("name", namePropSchema)] k) :=
  ⟨rfl, (compose_properties_id_spec [("name", namePropSchema)] (some "sku")).2 rfl⟩

/-- C9: indexed lookup returns the value stored in the document's obj when
the key is present, otherwise the schema-declared default for that
property when one exists, and KeyError (none) exactly when neither
exists.  The defaults dict is the one the metaclass computes from the
composed schema's properties. -/
theorem getitem_default_semantics {α : Type} (obj : List (String × α))
    (props : List (String × List (String × α))) (key : String)
    (hnd : (props.map Prod.fst).Nodup) :
    document_getitem obj (computeDefaults props) key =
      match getKey obj key with
      | some v => some v
      | none => (getKey props key).bind (fun fields => getKey fields "default") := by
  cases h : getKey obj key with
  | some v => simp [document_getitem, h]
  | none => simp [document_getitem, h, getKey_computeDefaults props key hnd]

/-- C9 witness: reading an unset property with a declared default yields
the default. -/
theorem getitem_default_semantics_witness :
    (c9Props.map Prod.fst).Nodup ∧
    document_getitem ([] : List (String × SVal)) (computeDefaults c9Props) "color" =
      some (SVal.s "blue") :=
  ⟨by decide, (getitem_default_semantics [] c9Props "color" (by decide)).trans rfl⟩

/-- C10 counterexample: the claim says two Documents are equal exactly
when the left one has a non-None id equal to the other's id.  A saved
document whose primary key value is the empty string has a non-None id
equal to its own, yet __eq__ returns a falsy value, because the code tests
`self.id and ...` — Python truthiness, not merely non-None. -/
theorem document_eq_empty_id_counterexample :
    document_id plainColl emptyIdDoc = Except.ok (some (DocValue.vstr "")) ∧
    document_eq plainColl emptyIdDoc emptyIdDoc = Except.ok false :=
  ⟨rfl, rfl⟩

/-- C10 (amended): Document equality compares only primary-key values via
Python truthiness: two Documents are equal exactly when the left one's id
is truthy (non-None and non-empty/non-zero) and equal to the other's id,
regardless of any other property contents; consequently an unsaved
Document (id None) is not equal to any Document, including itself. -/
theorem document_eq_characterization (c : CollectionM) (d1 d2 : DocState) :
    (document_eq c d1 d2 = Except.ok true ↔
      ∃ i, document_id c d1 = Except.ok (some i) ∧ pyTruthy i = true ∧
        document_id c d2 = Except.ok (some i)) ∧
    (d1.saved = false → document_eq c d1 d1 = Except.ok false) := by
  constructor
  · cases h1 : document_id c d1 with
    | error e => simp [document_eq, h1]
    | ok i1 =>
      cases i1 with
      | none => simp [document_eq, h1, pyTruthyOpt]
      | some v =>
        cases hv : pyTruthy v with
        | false => simp [document_eq, h1, pyTruthyOpt, hv]
        | true =>
          cases h2 : document_id c d2 with
          | error e => simp [document_eq, h1, pyTruthyOpt, hv, h2]
          | ok i2 =>
            simp only [document_eq, h1, pyTruthyOpt, hv, h2, if_true]
            constructor
            · intro he
              have : decide (some v = i2) = true := by
                injection he
              refine ⟨v, rfl, hv, ?_⟩
              rw [of_decide_eq_true this]
            · rintro ⟨i, hi, _, hii⟩
              injection hi with hi'
              injection hi' with hi''
              injection hii with hii'
              rw [← hi''] at hii'
              rw [← hii']
              simp
  · intro hs
    simp [document_eq, document_id, hs, pyTruthyOpt]

/-- C10 witness: an unsaved document is not equal to itself. -/
theorem document_eq_characterization_witness :
    unsavedDoc.saved = false ∧
    document_eq plainColl unsavedDoc unsavedDoc = Except.ok false :=
  ⟨rfl, (document_eq_characterization plainColl unsavedDoc unsavedDoc).2 rfl⟩

end Sondra
